import Mathlib

/-!
Shallow embedding of `steam/core/cm.py` (class `CMClient`): the session
attribute block, `disconnect` and `_init_attributes`, `_parse_message`,
`_handle_encrypt_request`, `_handle_multi`, `_handle_logon`, and one
iteration of the `_recv_messages` loop.

External collaborators — the TCP transport, the crypto primitives
(`steam.core.crypto`), `binascii.crc32`, `zipfile` extraction and the
per-type message deserializers (`Msg`/`MsgProto`) — are not part of the
source file; they enter as function parameters (oracles) exactly at the
call sites where `cm.py` invokes them.  Side effects (`gevent.spawn`,
transport calls, event emission, fatal/exception-level logging) are
recorded as an ordered trace of `Effect`s, and a Python exception escaping
the modelled method is the `error` field of its outcome.  Bytes are `Nat`s,
byte strings are `List Nat`, greenlet handles are `Nat`s.
-/

/-- Message-type identifiers used by `cm.py` (`EMsg`).  The enumeration
itself lives outside the source file (`steam.enums.emsg`); the values the
source mentions get named constructors and every other value is `other`. -/
inductive EMsg where
  | channelEncryptRequest
  | channelEncryptResponse
  | channelEncryptResult
  | multi
  | clientLogOnResponse
  | clientHeartBeat
  | other (n : Nat)
deriving DecidableEq

/-- Result codes used by `cm.py` (`EResult`, from `steam.enums`, outside the
source file): the three the source tests for, and `other` for the rest. -/
inductive EResult where
  | ok
  | tryAnotherCM
  | serviceUnavailable
  | other (n : Nat)
deriving DecidableEq

/-- Universe identifiers (`EUniverse`, outside the source file). -/
inductive EUniverse where
  | publicU
  | other (n : Nat)
deriving DecidableEq

/-- Python exceptions that can escape the modelled methods. -/
inductive PyErr where
  | attributeError
  | unboundLocalError
  | structError
deriving DecidableEq

/-- One observable side effect performed by a modelled method, in program
order: a `gevent.spawn`, a transport call, a `kill` of a greenlet handle, an
event emission, or a fatal/exception-level log line. -/
inductive Effect where
  | logFatal
  | logException
  | spawnConnect
  | spawnDisconnect
  | connDisconnect
  | killTask (t : Nat)
  | spawnHeartbeat (interval : Nat)
  | sendEncryptResponse (keyBlob : List Nat) (crc : Nat)
  | emitChannelSecured
  | emitDisconnected
  | emitMsg (e : EMsg)
deriving DecidableEq

/-- The mutable session attributes of `CMClient` that `_init_attributes`
manages: connected flag, session key, HMAC secret, steam id, session id,
and the two greenlet handles (receive loop, heartbeat loop). -/
structure CMState where
  connected : Bool
  key : Option (List Nat)
  hmac_secret : Option (List Nat)
  steam_id : Option Nat
  session_id : Option Nat
  recv_loop : Option Nat
  heartbeat_loop : Option Nat
deriving DecidableEq

/-- `CMClient._init_attributes`: every session attribute reset to its empty
initial value. -/
def init_attributes : CMState :=
  { connected := false
    key := none
    hmac_secret := none
    steam_id := none
    session_id := none
    recv_loop := none
    heartbeat_loop := none }

/-- Outcome of a modelled method: the session state after it returns (the
pre-state if it raised), the ordered effect trace it performed, and the
Python exception it raised, if any. -/
structure Outcome where
  state : CMState
  effects : List Effect
  error : Option PyErr
deriving DecidableEq

/-- `CMClient.disconnect(reconnect)`: optionally spawn a fresh `connect`,
tear down the transport, kill the heartbeat greenlet if one exists, kill the
receive greenlet *unconditionally* (`self._recv_loop.kill()` — an
`AttributeError` on `None` when no receive task exists, leaving every
attribute untouched), then `_init_attributes` and emit `'disconnected'`. -/
def disconnect (s : CMState) (reconnect : Bool) : Outcome :=
  let e1 : List Effect :=
    (if reconnect then [Effect.spawnConnect] else []) ++ [Effect.connDisconnect]
  let e2 : List Effect := e1 ++
    (match s.heartbeat_loop with
     | some t => [Effect.killTask t]
     | none => [])
  match s.recv_loop with
  | none => { state := s, effects := e2, error := some PyErr.attributeError }
  | some t =>
      { state := init_attributes
        effects := e2 ++ [Effect.killTask t, Effect.emitDisconnected]
        error := none }

/-- `struct.unpack_from("<I", data)`: the little-endian 32-bit word formed
by the first four bytes.  Callers only use it after checking the buffer has
at least four bytes, matching `struct`'s own precondition. -/
def le32 : List Nat → Nat
  | b0 :: b1 :: b2 :: b3 :: _ => b0 + 256 * b1 + 65536 * b2 + 16777216 * b3
  | _ => 0

/-- `struct.pack("<I", n)`: the four little-endian bytes of `n`. -/
def le32enc (n : Nat) : List Nat :=
  [n % 256, n / 256 % 256, n / 65536 % 256, n / 16777216 % 256]

/-- `steam.core.msg.is_proto` (helper named in the source's imports): bit 31
of the raw type word. -/
def is_proto (n : Nat) : Bool := decide (2 ^ 31 ≤ n % 2 ^ 32)

/-- `steam.core.msg.clear_proto_bit`: the raw type word with bit 31
cleared. -/
def clear_proto_bit (n : Nat) : Nat := n % 2 ^ 31

/-- The `EMsg(x)` enum lookup performed by `_parse_message` on the cleared
type word.  The real enum values live outside the source file; the ids used
here are the protocol's published ones. -/
def emsgOfNat (n : Nat) : EMsg :=
  if n = 1303 then EMsg.channelEncryptRequest
  else if n = 1304 then EMsg.channelEncryptResponse
  else if n = 1305 then EMsg.channelEncryptResult
  else if n = 1 then EMsg.multi
  else if n = 751 then EMsg.clientLogOnResponse
  else if n = 703 then EMsg.clientHeartBeat
  else EMsg.other n

/-- Outcome of `_parse_message` (which never mutates the session itself):
its effect trace and the exception escaping it, if any. -/
structure ParseOut where
  effects : List Effect
  error : Option PyErr
deriving DecidableEq

/-- `CMClient._parse_message(message)`.  `deser` is the external
deserializer oracle: whether `MsgProto(emsg, message)` (proto flag set)
resp. `Msg(emsg, message, extended=True)` succeeds.  On the early-return
when not connected: nothing.  The three channel-encrypt types bypass the
`try` and always dispatch.  Every other type is deserialized inside a
`try`: on failure the source logs fatally, swallows the exception — and
then falls through to `repr(msg)` with the local `msg` never assigned,
raising `UnboundLocalError` out of the method. -/
def parse_message (deser : Bool → EMsg → List Nat → Bool)
    (s : CMState) (message : List Nat) : ParseOut :=
  if s.connected = false then { effects := [], error := none }
  else if message.length < 4 then
    { effects := [], error := some PyErr.structError }
  else
    let emsg_id := le32 message
    let emsg := emsgOfNat (clear_proto_bit emsg_id)
    if emsg = EMsg.channelEncryptRequest ∨ emsg = EMsg.channelEncryptResponse ∨
        emsg = EMsg.channelEncryptResult then
      { effects := [Effect.emitMsg emsg], error := none }
    else if deser (is_proto emsg_id) emsg message then
      { effects := [Effect.emitMsg emsg], error := none }
    else
      { effects := [Effect.logFatal], error := some PyErr.unboundLocalError }

/-- Body of `ChannelEncryptRequest` as `_handle_encrypt_request` reads it.
(`univ` models the Python field `universe`, a Lean keyword.) -/
structure EncryptRequestBody where
  protocolVersion : Nat
  univ : EUniverse
  challenge : List Nat

/-- Body of the awaited `ChannelEncryptResult`. -/
structure EncryptResultBody where
  eresult : EResult

/-- `CMClient._handle_encrypt_request(msg)`.  `genKey` is the external
`crypto.generate_session_key` (plain key, encrypted key blob); `crc32` is
`binascii.crc32`; `waited` is the `ChannelEncryptResult` that
`wait_event` eventually returns.  Version/universe mismatch: spawn
disconnect, no reply.  Failed result: reply was sent, then spawn
disconnect.  Success: commit `key`, commit `hmac_secret := key[:16]` only
when the challenge was non-empty, emit `'channel_secured'`. -/
def handle_encrypt_request (genKey : List Nat → List Nat × List Nat)
    (crc32 : List Nat → Nat) (waited : EncryptResultBody)
    (s : CMState) (m : EncryptRequestBody) : Outcome :=
  if m.protocolVersion ≠ 1 ∨ m.univ ≠ EUniverse.publicU then
    { state := s, effects := [Effect.spawnDisconnect], error := none }
  else
    let kp := genKey m.challenge
    let sendEff := Effect.sendEncryptResponse kp.2 (crc32 kp.2 % 2 ^ 32)
    if waited.eresult ≠ EResult.ok then
      { state := s, effects := [sendEff, Effect.spawnDisconnect], error := none }
    else
      { state :=
          { s with
            key := some kp.1
            hmac_secret :=
              if m.challenge ≠ [] then some (kp.1.take 16) else s.hmac_secret }
        effects := [sendEff, Effect.emitChannelSecured]
        error := none }

/-- Body of a `Multi` envelope as `_handle_multi` reads it. -/
structure MultiBody where
  size_unzipped : Nat
  message_body : List Nat

/-- Outcome of `_handle_multi`: its effect trace, the ordered list of raw
sub-envelope slices it hands to `_parse_message`, and the exception the
splitting loop itself raised, if any. -/
structure MultiOut where
  effects : List Effect
  dispatched : List (List Nat)
  error : Option PyErr
deriving DecidableEq

/-- The splitting loop at the end of `_handle_multi`:
`while len(data) > 0: size = <I(data); parse(data[4:4+size]); data = data[4+size:]`.
A leftover of one to three bytes makes `struct.unpack_from` raise.
Recursion is fuelled; `split_multi` passes `data.length`, which bounds the
iteration count because every iteration consumes at least four bytes. -/
def splitGo : Nat → List Nat → List (List Nat) × Option PyErr
  | 0, _ => ([], none)
  | fuel + 1, data =>
    if data.length = 0 then ([], none)
    else if data.length < 4 then ([], some PyErr.structError)
    else
      let size := le32 data
      let r := splitGo fuel ((data.drop 4).drop size)
      ((data.drop 4).take size :: r.1, r.2)

/-- The splitting loop of `_handle_multi` on a whole buffer. -/
def split_multi (data : List Nat) : List (List Nat) × Option PyErr :=
  splitGo data.length data

/-- `CMClient._handle_multi(msg)`.  `unzip` is the external
`zipfile.ZipFile(...).read('z')` single-member extraction.  Nonzero
declared size: extract, and on a length mismatch log fatally, spawn a
disconnect and dispatch nothing; otherwise split the extracted bytes.
Zero declared size: split the raw body. -/
def handle_multi (unzip : List Nat → List Nat) (body : MultiBody) : MultiOut :=
  if body.size_unzipped ≠ 0 then
    let data := unzip body.message_body
    if data.length ≠ body.size_unzipped then
      { effects := [Effect.logFatal, Effect.spawnDisconnect]
        dispatched := []
        error := none }
    else
      { effects := [], dispatched := (split_multi data).1, error := (split_multi data).2 }
  else
    { effects := []
      dispatched := (split_multi body.message_body).1
      error := (split_multi body.message_body).2 }

/-- The concatenation of length-prefixed sub-envelopes that a well-formed
uncompressed `Multi` body consists of (the inverse of the splitting loop). -/
def encodeMulti : List (List Nat) → List Nat
  | [] => []
  | c :: rest => le32enc c.length ++ (c ++ encodeMulti rest)

/-- Header fields of `ClientLogOnResponse` as `_handle_logon` reads them. -/
structure LogonHeader where
  steamid : Nat
  client_sessionid : Nat

/-- Body fields of `ClientLogOnResponse` as `_handle_logon` reads them. -/
structure LogonBody where
  eresult : EResult
  out_of_game_heartbeat_seconds : Nat

/-- A decoded `ClientLogOnResponse`. -/
structure LogonMsg where
  header : LogonHeader
  body : LogonBody

/-- `CMClient._handle_logon(msg)`.  `fresh` is the greenlet handle the
`gevent.spawn(self._heartbeat, interval)` call returns.  Try-another-CM or
service-unavailable: `self.disconnect(True)` synchronously and return.
Success: set `steam_id` and `session_id` from the header, kill the old
heartbeat greenlet if one exists, then spawn the new one with the interval
from the body.  Any other result: fall through, doing nothing. -/
def handle_logon (s : CMState) (fresh : Nat) (m : LogonMsg) : Outcome :=
  if m.body.eresult = EResult.tryAnotherCM ∨
      m.body.eresult = EResult.serviceUnavailable then
    disconnect s true
  else if m.body.eresult = EResult.ok then
    { state :=
        { s with
          steam_id := some m.header.steamid
          session_id := some m.header.client_sessionid
          heartbeat_loop := some fresh }
      effects :=
        (match s.heartbeat_loop with
         | some t => [Effect.killTask t]
         | none => []) ++
        [Effect.spawnHeartbeat m.body.out_of_game_heartbeat_seconds]
      error := none }
  else
    { state := s, effects := [], error := none }

/-- Whether the receive loop continues to the next iteration or returns. -/
inductive LoopCtl where
  | exit
  | cont
deriving DecidableEq

/-- Outcome of one data-carrying iteration of `_recv_messages`: the effect
trace, whether the loop keeps running, and the plaintext handed to
`_parse_message`, if any. -/
structure RecvOut where
  effects : List Effect
  ctl : LoopCtl
  dispatched : Option (List Nat)
deriving DecidableEq

/-- One iteration of `CMClient._recv_messages` after `get_message` returned
a frame.  `decHMAC` is the external `crypto.symmetric_decrypt_HMAC`
(`none` models the `RuntimeError` it raises when the integrity tag fails to
verify); `dec` is the external plain `crypto.symmetric_decrypt`.  With a
key and an HMAC secret, a failed authenticated decryption logs the
exception, spawns a disconnect and returns from the loop without parsing
anything; otherwise the (possibly decrypted) frame goes to
`_parse_message`. -/
def recv_step (decHMAC : List Nat → List Nat → List Nat → Option (List Nat))
    (dec : List Nat → List Nat → List Nat)
    (s : CMState) (frame : List Nat) : RecvOut :=
  match s.key with
  | none => { effects := [], ctl := LoopCtl.cont, dispatched := some frame }
  | some k =>
    match s.hmac_secret with
    | none =>
        { effects := [], ctl := LoopCtl.cont, dispatched := some (dec frame k) }
    | some h =>
      match decHMAC frame k h with
      | none =>
          { effects := [Effect.logException, Effect.spawnDisconnect]
            ctl := LoopCtl.exit
            dispatched := none }
      | some pt =>
          { effects := [], ctl := LoopCtl.cont, dispatched := some pt }

/-- C1: at a connected state, a four-byte envelope carrying the known
non-handshake type `Multi` whose body the deserializer rejects makes
`_parse_message` log fatally and dispatch nothing — but the method then
raises `UnboundLocalError` (the local `msg` was never assigned when the
logging line reads it), so the failure does escape to the receive loop,
contrary to the claim that decoding never propagates. -/
theorem parse_deser_failure_raises :
    parse_message (fun _ _ _ => false)
        { init_attributes with connected := true } [1, 0, 0, 0] =
      { effects := [Effect.logFatal], error := some PyErr.unboundLocalError } := by
  rfl

/-- C2: on a valid encrypt-request (version 1, public universe, fresh
session with no secret yet) whose awaited encrypt-result is OK, the handler
commits the session key, commits the HMAC secret as the first 16 bytes of
that key exactly when the challenge was non-empty, and its effect trace is
the handshake reply followed by the `'channel_secured'` emission. -/
theorem encrypt_result_ok_commits_key (genKey : List Nat → List Nat × List Nat)
    (crc32 : List Nat → Nat) (waited : EncryptResultBody) (s : CMState)
    (m : EncryptRequestBody) (hv : m.protocolVersion = 1)
    (hu : m.univ = EUniverse.publicU) (hres : waited.eresult = EResult.ok)
    (hpre : s.hmac_secret = none) :
    (handle_encrypt_request genKey crc32 waited s m).state.key =
        some (genKey m.challenge).1 ∧
    ((handle_encrypt_request genKey crc32 waited s m).state.hmac_secret =
        if m.challenge = [] then none
        else some ((genKey m.challenge).1.take 16)) ∧
    ((handle_encrypt_request genKey crc32 waited s m).state.hmac_secret ≠ none ↔
        m.challenge ≠ []) ∧
    (handle_encrypt_request genKey crc32 waited s m).effects =
      [Effect.sendEncryptResponse (genKey m.challenge).2
          (crc32 (genKey m.challenge).2 % 2 ^ 32),
        Effect.emitChannelSecured] ∧
    (handle_encrypt_request genKey crc32 waited s m).error = none := by
  by_cases hch : m.challenge = [] <;>
    simp [handle_encrypt_request, hv, hu, hres, hpre, hch]

/-- C2 witness: concrete valid handshake, challenge `[2]`: key committed. -/
theorem encrypt_result_ok_commits_key_witness :
    (handle_encrypt_request (fun c => (c ++ c, [5])) (fun _ => 7)
        { eresult := EResult.ok } init_attributes
        { protocolVersion := 1, univ := EUniverse.publicU,
          challenge := [2] }).state.key = some [2, 2] :=
  (encrypt_result_ok_commits_key _ _ _ _ _ rfl rfl rfl rfl).1

/-- C6: an encrypt-request with a wrong protocol version or a wrong
universe makes the handler spawn a disconnect, mutate nothing, and send
nothing — in particular no encrypt-response ever reaches the transport. -/
theorem encrypt_request_bad_version_no_reply
    (genKey : List Nat → List Nat × List Nat) (crc32 : List Nat → Nat)
    (waited : EncryptResultBody) (s : CMState) (m : EncryptRequestBody)
    (h : m.protocolVersion ≠ 1 ∨ m.univ ≠ EUniverse.publicU) :
    handle_encrypt_request genKey crc32 waited s m =
      { state := s, effects := [Effect.spawnDisconnect], error := none } ∧
    ∀ blob c, Effect.sendEncryptResponse blob c ∉
      (handle_encrypt_request genKey crc32 waited s m).effects := by
  have he : handle_encrypt_request genKey crc32 waited s m =
      { state := s, effects := [Effect.spawnDisconnect], error := none } := by
    rcases h with h | h <;> simp [handle_encrypt_request, h]
  exact ⟨he, by simp [he]⟩

/-- C6 witness: protocol version 2 gets no reply, only a disconnect. -/
theorem encrypt_request_bad_version_no_reply_witness :
    handle_encrypt_request (fun c => (c, c)) (fun _ => 0)
        { eresult := EResult.ok } init_attributes
        { protocolVersion := 2, univ := EUniverse.publicU, challenge := [] } =
      { state := init_attributes, effects := [Effect.spawnDisconnect],
        error := none } :=
  (encrypt_request_bad_version_no_reply _ _ _ _ _ (Or.inl (by decide))).1

/-- C8: with both a session key and an HMAC secret held, a frame whose
authenticated decryption fails makes the receive iteration log the
exception, spawn a disconnect and leave the loop, handing no plaintext to
`_parse_message`. -/
theorem recv_hmac_failure_disconnects
    (decHMAC : List Nat → List Nat → List Nat → Option (List Nat))
    (dec : List Nat → List Nat → List Nat) (s : CMState) (frame k h : List Nat)
    (hk : s.key = some k) (hh : s.hmac_secret = some h)
    (hfail : decHMAC frame k h = none) :
    recv_step decHMAC dec s frame =
      { effects := [Effect.logException, Effect.spawnDisconnect]
        ctl := LoopCtl.exit
        dispatched := none } := by
  simp [recv_step, hk, hh, hfail]

/-- C8 witness: concrete keyed state with an always-failing authenticated
decryption. -/
theorem recv_hmac_failure_disconnects_witness :
    recv_step (fun _ _ _ => none) (fun b _ => b)
        { init_attributes with key := some [1], hmac_secret := some [2] } [9] =
      { effects := [Effect.logException, Effect.spawnDisconnect]
        ctl := LoopCtl.exit
        dispatched := none } :=
  recv_hmac_failure_disconnects _ _ _ [9] [1] [2] rfl rfl rfl

/-- C10: with no receive-task handle (never connected, or already reset by
a previous disconnect), `disconnect` raises `AttributeError` at the
unguarded `self._recv_loop.kill()`, resets no attribute and emits no
`'disconnected'` notification. -/
theorem disconnect_without_recv_task_raises (s : CMState) (reconnect : Bool)
    (hr : s.recv_loop = none) :
    (disconnect s reconnect).error = some PyErr.attributeError ∧
    (disconnect s reconnect).state = s ∧
    Effect.emitDisconnected ∉ (disconnect s reconnect).effects := by
  cases reconnect <;> cases hhb : s.heartbeat_loop <;>
    simp [disconnect, hr, hhb]

/-- C10 witness: the freshly initialized session (also the state left
behind by any completed disconnect) makes `disconnect` raise. -/
theorem disconnect_without_recv_task_raises_witness :
    (disconnect init_attributes false).error = some PyErr.attributeError :=
  (disconnect_without_recv_task_raises init_attributes false rfl).1

/-- C7 counterexample: a session holding a key but no receive-task handle:
this call to `disconnect` resets nothing (the key survives), raises
`AttributeError` and never emits `'disconnected'` — so not every call to
`disconnect` resets the attributes and emits the notification. -/
theorem disconnect_partial_claim_counterexample :
    (disconnect { init_attributes with connected := true, key := some [1] }
        false).state.key = some [1] ∧
    (disconnect { init_attributes with connected := true, key := some [1] }
        false).error = some PyErr.attributeError ∧
    Effect.emitDisconnected ∉
      (disconnect { init_attributes with connected := true, key := some [1] }
        false).effects := by
  decide

/-- C7 (amended): every call to `disconnect` on a session holding a
receive-task handle resets all session attributes as a unit to their
initial empty values, raises nothing, and emits `'disconnected'` as its
final effect; with no receive-task handle the call raises before resetting
anything — in neither case are only some attributes reset. -/
theorem disconnect_resets_as_unit (s : CMState) (reconnect : Bool) (t : Nat)
    (hr : s.recv_loop = some t) :
    (disconnect s reconnect).state = init_attributes ∧
    (disconnect s reconnect).error = none ∧
    (disconnect s reconnect).effects.getLast? = some Effect.emitDisconnected := by
  cases reconnect <;> cases hhb : s.heartbeat_loop <;>
    simp [disconnect, hr, hhb]

/-- C7 witness: a fully populated session disconnects to the empty state. -/
theorem disconnect_resets_as_unit_witness :
    (disconnect
        { connected := true, key := some [1], hmac_secret := some [2],
          steam_id := some 3, session_id := some 4, recv_loop := some 5,
          heartbeat_loop := some 6 } false).state = init_attributes :=
  (disconnect_resets_as_unit _ false 5 rfl).1

/-- C3: for a `Multi` body with nonzero declared uncompressed size, a
mismatch between the extracted member's length and the declared size makes
the handler log fatally, spawn a disconnect and dispatch no sub-envelope;
when the lengths match, the splitting loop runs on the extracted bytes. -/
theorem multi_size_mismatch_drops (unzip : List Nat → List Nat)
    (body : MultiBody) (hnz : body.size_unzipped ≠ 0) :
    ((unzip body.message_body).length ≠ body.size_unzipped →
      handle_multi unzip body =
        { effects := [Effect.logFatal, Effect.spawnDisconnect]
          dispatched := []
          error := none }) ∧
    ((unzip body.message_body).length = body.size_unzipped →
      (handle_multi unzip body).dispatched =
          (split_multi (unzip body.message_body)).1 ∧
      (handle_multi unzip body).effects = []) := by
  constructor <;> intro hlen <;> simp [handle_multi, hnz, hlen]

/-- C3 witness: declared size 2 but a one-byte extracted member: fatal log,
disconnect, nothing dispatched. -/
theorem multi_size_mismatch_drops_witness :
    handle_multi (fun _ => [0]) { size_unzipped := 2, message_body := [] } =
      { effects := [Effect.logFatal, Effect.spawnDisconnect]
        dispatched := []
        error := none } :=
  (multi_size_mismatch_drops (fun _ => [0]) _ (by decide)).1 (by decide)

/-- C4: a logon-response carrying try-another-CM or service-unavailable
(received while a receive task exists, as it always does inside dispatch)
triggers `disconnect(True)`: exactly one `connect` is spawned, no heartbeat
is started, and no account or session identifier is set. -/
theorem logon_reconnect_codes (s : CMState) (fresh : Nat) (m : LogonMsg)
    (t : Nat)
    (hres : m.body.eresult = EResult.tryAnotherCM ∨
      m.body.eresult = EResult.serviceUnavailable)
    (hr : s.recv_loop = some t) :
    (handle_logon s fresh m).effects.count Effect.spawnConnect = 1 ∧
    (∀ i, Effect.spawnHeartbeat i ∉ (handle_logon s fresh m).effects) ∧
    (handle_logon s fresh m).state.steam_id = none ∧
    (handle_logon s fresh m).state.session_id = none ∧
    (handle_logon s fresh m).error = none := by
  have hd : handle_logon s fresh m = disconnect s true := by
    rcases hres with h | h <;> simp [handle_logon, h]
  rw [hd]
  cases hhb : s.heartbeat_loop <;>
    simp [disconnect, hr, hhb, init_attributes, List.count_cons]

/-- C4 witness: concrete try-another-CM response while connected. -/
theorem logon_reconnect_codes_witness :
    (handle_logon { init_attributes with recv_loop := some 3 } 9
        { header := { steamid := 1, client_sessionid := 2 }
          body := { eresult := EResult.tryAnotherCM,
                    out_of_game_heartbeat_seconds := 0 } }).effects.count
      Effect.spawnConnect = 1 :=
  (logon_reconnect_codes _ 9 _ 3 (Or.inl rfl) rfl).1

/-- C5: a successful logon-response sets the account and session
identifiers from the response header, and its effect trace kills the old
heartbeat greenlet (exactly when one existed) strictly before spawning the
new one, whose interval comes from the response body; the new handle
replaces the old in the session. -/
theorem logon_ok_heartbeat (s : CMState) (fresh : Nat) (m : LogonMsg)
    (hres : m.body.eresult = EResult.ok) :
    (handle_logon s fresh m).state.steam_id = some m.header.steamid ∧
    (handle_logon s fresh m).state.session_id =
        some m.header.client_sessionid ∧
    (handle_logon s fresh m).state.heartbeat_loop = some fresh ∧
    (handle_logon s fresh m).effects =
      (match s.heartbeat_loop with
       | some t => [Effect.killTask t]
       | none => []) ++
      [Effect.spawnHeartbeat m.body.out_of_game_heartbeat_seconds] ∧
    (handle_logon s fresh m).error = none := by
  simp [handle_logon, hres]

/-- C5 witness: a second successful logon (heartbeat handle 4 live) kills
the old task before spawning the new one with the negotiated interval. -/
theorem logon_ok_heartbeat_witness :
    (handle_logon { init_attributes with heartbeat_loop := some 4 } 6
        { header := { steamid := 11, client_sessionid := 12 }
          body := { eresult := EResult.ok,
                    out_of_game_heartbeat_seconds := 30 } }).effects =
      [Effect.killTask 4, Effect.spawnHeartbeat 30] :=
  (logon_ok_heartbeat _ 6 _ rfl).2.2.2.1

/-- Little-endian length prefixes decode back to the encoded length. -/
lemma le32_le32enc_append (n : Nat) (l : List Nat) (h : n < 2 ^ 32) :
    le32 (le32enc n ++ l) = n := by
  simp only [le32enc, List.cons_append, List.nil_append, le32]
  omega

/-- Dropping the four prefix bytes recovers the suffix. -/
lemma drop_four_le32enc_append (n : Nat) (l : List Nat) :
    (le32enc n ++ l).drop 4 = l := by
  simp [le32enc]

/-- The splitting loop inverts `encodeMulti`, given enough fuel (the buffer
length always is: each iteration consumes at least four bytes). -/
lemma splitGo_encodeMulti : ∀ chunks : List (List Nat),
    (∀ c ∈ chunks, c.length < 2 ^ 32) →
    ∀ fuel, (encodeMulti chunks).length ≤ fuel →
      splitGo fuel (encodeMulti chunks) = (chunks, none) := by
  intro chunks
  induction chunks with
  | nil =>
    intro _ fuel _
    cases fuel <;> simp [encodeMulti, splitGo]
  | cons c rest ih =>
    intro h fuel hf
    have hc : c.length < 2 ^ 32 := h c (List.mem_cons_self c rest)
    have hlen : (encodeMulti (c :: rest)).length =
        4 + (c.length + (encodeMulti rest).length) := by
      simp [encodeMulti, le32enc]
      omega
    cases fuel with
    | zero => omega
    | succ f =>
      have hne : ¬ (encodeMulti (c :: rest)).length = 0 := by omega
      have hge : ¬ (encodeMulti (c :: rest)).length < 4 := by omega
      rw [show encodeMulti (c :: rest) =
            le32enc c.length ++ (c ++ encodeMulti rest) from rfl] at hne hge ⊢
      rw [splitGo, if_neg hne, if_neg hge]
      simp only [le32_le32enc_append _ _ hc, drop_four_le32enc_append,
        List.take_left, List.drop_left]
      rw [ih (fun d hd => h d (List.mem_cons_of_mem c hd)) f (by omega)]

/-- C9: an uncompressed `Multi` body made of N length-prefixed
sub-envelopes is split into exactly those N slices, in packed order, each
being exactly the bytes after its prefix, with no error — the empty buffer
(N = 0) included. -/
theorem multi_unpack_roundtrip (unzip : List Nat → List Nat)
    (chunks : List (List Nat)) (h : ∀ c ∈ chunks, c.length < 2 ^ 32) :
    handle_multi unzip { size_unzipped := 0, message_body := encodeMulti chunks } =
      { effects := [], dispatched := chunks, error := none } := by
  have hs := splitGo_encodeMulti chunks h (encodeMulti chunks).length (le_refl _)
  simp [handle_multi, split_multi, hs]

/-- C9 witness: two concrete sub-envelopes round-trip through the loop. -/
theorem multi_unpack_roundtrip_witness :
    handle_multi (fun b => b)
        { size_unzipped := 0, message_body := encodeMulti [[5], [6, 7]] } =
      { effects := [], dispatched := [[5], [6, 7]], error := none } :=
  multi_unpack_roundtrip (fun b => b) [[5], [6, 7]] (by decide)
